import Mathlib

/-!
Verification development for the Customer Complaint Resolver Agent.

The repository consists of a Next.js frontend (dashboard, complaint list)
and a design blueprint describing the complaint-processing pipeline engine
(classification, priority scoring, draft/validate loop, routing, SLA
tracking).  The pipeline engine itself is not implemented in the
repository's source tree, so its data model and operations are modelled
here from the specification; the frontend helpers (`formatTimeAgo`,
dashboard metrics) are embedded directly from the TypeScript source.
-/

namespace Resolver

/-- Modelled from the spec: the fixed finite category vocabulary of
`ClassificationResult` (spec section 3; blueprint STEP 3). -/
inductive Category
  | Billing | Shipping | Product | Service | Technical | Feedback | Legal | Other
deriving DecidableEq, Repr

/-- Modelled from the spec: the fixed sentiment enumeration
(spec section 3; blueprint STEP 3). -/
inductive Sentiment
  | Positive | Neutral | Frustrated | Angry
deriving DecidableEq, Repr

/-- Modelled from the spec: `ClassificationResult` — category labels from the
fixed vocabulary, sentiment, intent label, confidence in [0,1], plus the
detected legal/chargeback-threat signal consumed by priority scoring
(spec sections 3 and 4.2).  The engine implementation is absent from the
source tree, so the record is reconstructed from the spec's data model. -/
structure ClassificationResult where
  categories : List Category
  sentiment : Sentiment
  intent : String
  legalThreat : Bool
  confidence : ℚ
deriving DecidableEq, Repr

/-- Modelled from the spec: `CustomerContext` — customer tier, lifetime
complaint count, repeat-same-issue flag, churn-risk score, VIP flag
(spec section 3). -/
structure CustomerContext where
  tier : String
  lifetimeComplaints : Nat
  repeatSameIssue : Bool
  churnRisk : ℚ
  vip : Bool
deriving DecidableEq, Repr

/-- Modelled from the spec: `ValidationResult` — boolean approved, feedback
text, confidence (spec section 3). -/
structure ValidationResult where
  approved : Bool
  feedback : String
  confidence : ℚ
deriving DecidableEq, Repr

/-- Modelled from the spec: the engine's immutable configuration value
(spec section 9: thresholds, modifier weights, max iterations become one
explicit configuration value).  `baseScore` is the per-category severity
table of spec section 4.2, `slaTargetMs` the per-priority response budget
used to derive SLA deadlines. -/
structure Config where
  baseScore : Category → Nat
  confidenceThreshold : ℚ
  breachThreshold : ℚ
  maxIterations : Nat
  slaTargetMs : Nat → Nat

/-- Modelled from the spec: the default configuration — classification
confidence threshold 0.7, SLA-breach probability threshold 0.6, at most 3
draft/validate iterations; base severities chosen to match the spec's
scenarios (Shipping base 2, Feedback base 1, legal/chargeback-bearing
categories start higher). -/
def defaultConfig : Config where
  baseScore c :=
    match c with
    | .Legal => 4
    | .Billing => 3
    | .Shipping => 2
    | .Product => 2
    | .Service => 2
    | .Technical => 2
    | .Feedback => 1
    | .Other => 1
  confidenceThreshold := 7 / 10
  breachThreshold := 3 / 5
  maxIterations := 3
  slaTargetMs p :=
    match p with
    | 5 => 3600000
    | 4 => 14400000
    | 3 => 28800000
    | 2 => 86400000
    | _ => 172800000

/-- Modelled from the spec: the named contributing factors of a
`PriorityResult` (spec sections 3 and 4.2). -/
inductive Factor
  | repeatComplaint | angrySentiment | vipCustomer | legalChargeback | slaBreachRisk
deriving DecidableEq, Repr

/-- Modelled from the spec: the fixed modifier weight attached to each
triggered factor (spec section 4.2). -/
def factorWeight : Factor → Nat
  | .repeatComplaint => 2
  | .angrySentiment => 1
  | .vipCustomer => 1
  | .legalChargeback => 3
  | .slaBreachRisk => 2

/-- Modelled from the spec: the list of factors triggered by one
classification/context pair together with the predicted SLA-breach
probability; each factor is contributed by exactly one trigger
(spec section 4.2). -/
def triggeredFactors (cfg : Config) (c : ClassificationResult)
    (ctx : CustomerContext) (breach : ℚ) : List Factor :=
  (if ctx.repeatSameIssue then [Factor.repeatComplaint] else []) ++
  (if c.sentiment = Sentiment.Angry then [Factor.angrySentiment] else []) ++
  (if ctx.vip then [Factor.vipCustomer] else []) ++
  (if c.legalThreat then [Factor.legalChargeback] else []) ++
  (if cfg.breachThreshold < breach then [Factor.slaBreachRisk] else [])

/-- Modelled from the spec: the dominant category of a classification —
the first listed category (scenario A reads base severity off Shipping in
categories [Shipping, Billing]); `Other` for an (excluded) empty list. -/
def dominantCategory (c : ClassificationResult) : Category :=
  c.categories.headD Category.Other

/-- Modelled from the spec: priority scoring — base score for the dominant
category plus the weights of the triggered modifiers, capped at 5
(spec section 4.2; blueprint STEP 4). -/
def priorityScore (cfg : Config) (c : ClassificationResult)
    (ctx : CustomerContext) (breach : ℚ) : Nat :=
  min (cfg.baseScore (dominantCategory c)
        + ((triggeredFactors cfg c ctx breach).map factorWeight).sum) 5

/-- Modelled from the spec: the states of the pipeline engine's state
machine (spec section 4.1). -/
inductive PipeState
  | INTAKE | CONTEXT | CLASSIFY | PRIORITIZE | DRAFT | VALIDATE | ROUTE
  | AUTO_SENT | QUEUED_FOR_REVIEW | ESCALATED | FAILED
deriving DecidableEq, Repr

/-- Modelled from the spec: the terminal states of the pipeline
(spec section 4.1). -/
def isTerminal : PipeState → Bool
  | .AUTO_SENT | .QUEUED_FOR_REVIEW | .ESCALATED | .FAILED => true
  | _ => false

/-- Modelled from the spec: the SLA record — the priority level the
deadline was last derived from, and the deadline timestamp in epoch
milliseconds (spec section 3). -/
structure SlaRecord where
  priority : Nat
  deadline : Int
deriving DecidableEq, Repr

/-- Modelled from the spec: derive an SLA deadline from the received
timestamp and a priority level via the configured per-priority response
budget. -/
def deriveDeadline (cfg : Config) (receivedAt : Int) (p : Nat) : Int :=
  receivedAt + (cfg.slaTargetMs p : Int)

/-- Modelled from the spec: SLA update on priority re-evaluation — the
record changes only when priority is revised upward, and the deadline is
never relaxed once set tighter (spec section 3, SLA Record). -/
def updateSla (cfg : Config) (receivedAt : Int) (rec : SlaRecord) (p : Nat) :
    SlaRecord :=
  if rec.priority < p then
    { priority := p, deadline := min rec.deadline (deriveDeadline cfg receivedAt p) }
  else rec

/-- Modelled from the spec: `WorkflowState` — the accumulating per-complaint
record driven through the state machine by the engine: stage outputs,
priority, SLA record, flags, and the draft/validate iteration count
(spec section 3).  `classifyCount` and `draftCount` count completed stage
invocations of CLASSIFY and DRAFT. -/
structure WorkflowState where
  pipe : PipeState
  receivedAt : Int
  context : Option CustomerContext
  contextUnavailable : Bool
  classification : Option ClassificationResult
  classifyCount : Nat
  priority : Nat
  sla : Option SlaRecord
  requiresHumanReview : Bool
  draft : Option String
  draftCount : Nat
  iterationCount : Nat
  lastValidation : Option ValidationResult
deriving DecidableEq, Repr

/-- Modelled from the spec: the initial workflow state constructed at
intake for a normalized complaint received at the given timestamp. -/
def initState (receivedAt : Int) : WorkflowState where
  pipe := .INTAKE
  receivedAt := receivedAt
  context := none
  contextUnavailable := false
  classification := none
  classifyCount := 0
  priority := 0
  sla := none
  requiresHumanReview := false
  draft := none
  draftCount := 0
  iterationCount := 0
  lastValidation := none

/-- Modelled from the spec: the behaviors of the external stage
capabilities (spec sections 4.3 and 6).  Each capability is indexed by the
attempt number (for the retry wrapper); drafting and validation are
additionally indexed by the draft/validate iteration, so a validator may
approve or reject each draft independently — including rejecting every
call. -/
structure Env where
  contextCap : Nat → Option CustomerContext
  classifyCap : Nat → Option ClassificationResult
  priorityCap : Nat → Option Nat
  draftCap : Nat → Nat → Option String
  validateCap : Nat → Nat → Option ValidationResult

/-- First successful result of a capability over `fuel` consecutive
attempts starting at attempt `start`. -/
def firstHit {α : Type} (cap : Nat → Option α) : Nat → Nat → Option α
  | _, 0 => none
  | start, fuel + 1 =>
    match cap start with
    | some a => some a
    | none => firstHit cap (start + 1) fuel

/-- Modelled from the spec: the stage invocation wrapper's attempt budget —
one initial call plus up to 3 retries (spec section 4.3; blueprint:
"Retry 3x, then queue for manual processing"). -/
def retryBudget : Nat := 4

/-- Modelled from the spec: invoke a capability through the retry wrapper,
returning the first successful result among the budgeted attempts. -/
def invokeOpt {α : Type} (cap : Nat → Option α) : Option α :=
  firstHit cap 0 retryBudget

/-- Modelled from the spec: the safe conservative classification the engine
falls back to when the CLASSIFY capability exhausts its retries
(spec section 4.3). -/
def safeClassification : ClassificationResult where
  categories := [Category.Other]
  sentiment := .Neutral
  intent := "Complaint"
  legalThreat := false
  confidence := 0

/-- Modelled from the spec: the empty customer context used when the Memory
Store is unavailable (spec sections 4.1 and 4.3). -/
def emptyContext : CustomerContext where
  tier := ""
  lifetimeComplaints := 0
  repeatSameIssue := false
  churnRisk := 0
  vip := false

/-- Modelled from the spec: the VALIDATE fallback — "validation failed =
send to human" (spec section 4.3). -/
def sendToHuman : ValidationResult where
  approved := false
  feedback := "validation failed - send to human"
  confidence := 0

/-- Modelled from the spec: the generic template response used when the
DRAFT capability exhausts its retries (spec section 4.3). -/
def genericTemplate : String := "generic template response"

/-- Modelled from the spec: the priority floor used when the PRIORITIZE
capability exhausts its retries (spec section 4.3). -/
def priorityFloor : Nat := 3

/-- Classification actually adopted by the CLASSIFY stage: capability
result through the retry wrapper, or the safe conservative fallback. -/
def classificationOf (env : Env) : ClassificationResult :=
  (invokeOpt env.classifyCap).getD safeClassification

/-- Raw priority adopted by the PRIORITIZE stage before range clamping:
capability result through the retry wrapper, or the priority floor. -/
def priorityRaw (env : Env) : Nat :=
  (invokeOpt env.priorityCap).getD priorityFloor

/-- Modelled from the spec: the engine enforces the `PriorityResult`
range invariant, a score in [1,5] (spec sections 3 and 7). -/
def clampScore (n : Nat) : Nat := min (max n 1) 5

/-- Draft adopted at the given iteration: capability result through the
retry wrapper, or the generic template fallback. -/
def draftAt (env : Env) (iter : Nat) : String :=
  (invokeOpt (env.draftCap iter)).getD genericTemplate

/-- Validation result adopted at the given iteration: capability result
through the retry wrapper, or the send-to-human fallback. -/
def validationAt (env : Env) (iter : Nat) : ValidationResult :=
  (invokeOpt (env.validateCap iter)).getD sendToHuman

/-- Modelled from the spec: the ROUTE decision (spec sections 4.1 and 4.4,
scenarios A and B): priority 5 escalates; otherwise a set
requires-human-review flag forces queued-for-review; otherwise priority 4
queues for review and priorities 1-3 auto-send. -/
def routeOutcome (review : Bool) (p : Nat) : PipeState :=
  if 5 ≤ p then .ESCALATED
  else if review then .QUEUED_FOR_REVIEW
  else if p = 4 then .QUEUED_FOR_REVIEW
  else .AUTO_SENT

/-- Modelled from the spec: one transition of the pipeline engine's state
machine (spec section 4.1), with the stage-invocation retry wrapper and
fallback policy of spec section 4.3 applied at every capability call.
Terminal states are absorbing. -/
def step (cfg : Config) (env : Env) (st : WorkflowState) : WorkflowState :=
  match st.pipe with
  | .INTAKE => { st with pipe := .CONTEXT }
  | .CONTEXT =>
    match invokeOpt env.contextCap with
    | some c => { st with pipe := .CLASSIFY, context := some c }
    | none =>
      { st with pipe := .CLASSIFY, context := some emptyContext,
                contextUnavailable := true }
  | .CLASSIFY =>
    { st with pipe := .PRIORITIZE,
              classification := some (classificationOf env),
              classifyCount := st.classifyCount + 1,
              requiresHumanReview := st.requiresHumanReview
                || decide ((classificationOf env).confidence < cfg.confidenceThreshold) }
  | .PRIORITIZE =>
    { st with pipe := .DRAFT,
              priority := clampScore (priorityRaw env),
              sla := some { priority := clampScore (priorityRaw env),
                            deadline := deriveDeadline cfg st.receivedAt
                              (clampScore (priorityRaw env)) },
              requiresHumanReview := st.requiresHumanReview
                || decide (4 ≤ clampScore (priorityRaw env)) }
  | .DRAFT =>
    { st with pipe := .VALIDATE,
              draft := some (draftAt env st.iterationCount),
              draftCount := st.draftCount + 1 }
  | .VALIDATE =>
    if (validationAt env st.iterationCount).approved then
      { st with pipe := .ROUTE,
                lastValidation := some (validationAt env st.iterationCount) }
    else if st.iterationCount < cfg.maxIterations then
      { st with pipe := .DRAFT,
                iterationCount := st.iterationCount + 1,
                lastValidation := some (validationAt env st.iterationCount) }
    else
      { st with pipe := .ROUTE,
                requiresHumanReview := true,
                priority := min (st.priority + 1) 5,
                sla := st.sla.map
                  (fun rec => updateSla cfg st.receivedAt rec (min (st.priority + 1) 5)),
                lastValidation := some (validationAt env st.iterationCount) }
  | .ROUTE => { st with pipe := routeOutcome st.requiresHumanReview st.priority }
  | _ => st

/-- Fuel sufficient for any workflow to reach a terminal state. -/
def runFuel (cfg : Config) : Nat := 2 * cfg.maxIterations + 7

/-- Run a whole workflow from intake for a complaint received at the given
timestamp. -/
def run (cfg : Config) (env : Env) (receivedAt : Int) : WorkflowState :=
  (step cfg env)^[runFuel cfg] (initState receivedAt)

/-- Number of transitions an engine state can still take before reaching a
terminal state (the variant of the termination argument). -/
def stepsLeft (cfg : Config) (st : WorkflowState) : Nat :=
  match st.pipe with
  | .INTAKE => 2 * cfg.maxIterations + 7
  | .CONTEXT => 2 * cfg.maxIterations + 6
  | .CLASSIFY => 2 * cfg.maxIterations + 5
  | .PRIORITIZE => 2 * cfg.maxIterations + 4
  | .DRAFT => 2 * (cfg.maxIterations - st.iterationCount) + 3
  | .VALIDATE => 2 * (cfg.maxIterations - st.iterationCount) + 2
  | .ROUTE => 1
  | _ => 0

/-- Inductive invariant of the engine: the iteration count is bounded by
the configured maximum, the priority score stays in range, and the stage
counters agree with the current machine state. -/
def Inv (cfg : Config) (st : WorkflowState) : Prop :=
  st.iterationCount ≤ cfg.maxIterations ∧
  st.priority ≤ 5 ∧
  match st.pipe with
  | .INTAKE | .CONTEXT | .CLASSIFY =>
    st.priority = 0 ∧ st.sla = none ∧ st.classifyCount = 0 ∧
      st.draftCount = 0 ∧ st.iterationCount = 0
  | .PRIORITIZE =>
    st.priority = 0 ∧ st.sla = none ∧ st.classifyCount = 1 ∧
      st.draftCount = 0 ∧ st.iterationCount = 0
  | .DRAFT => st.classifyCount = 1 ∧ st.draftCount = st.iterationCount
  | .VALIDATE => st.classifyCount = 1 ∧ st.draftCount = st.iterationCount + 1
  | _ => st.classifyCount = 1 ∧ st.draftCount ≤ cfg.maxIterations + 1

/-- Scenario A classification: categories [Shipping, Billing], angry
sentiment, chargeback threat detected, high confidence. -/
def scenarioAClass : ClassificationResult where
  categories := [Category.Shipping, Category.Billing]
  sentiment := Sentiment.Angry
  intent := "Refund"
  legalThreat := true
  confidence := 92 / 100

/-- Scenario A customer context: repeat complaint on the same issue,
not VIP. -/
def scenarioACtx : CustomerContext where
  tier := "Gold"
  lifetimeComplaints := 5
  repeatSameIssue := true
  churnRisk := 78 / 100
  vip := false

/-- Scenario D classification: confidence 0.6, below the 0.7 threshold. -/
def lowConfClass : ClassificationResult where
  categories := [Category.Feedback]
  sentiment := Sentiment.Positive
  intent := "Praise"
  legalThreat := false
  confidence := 6 / 10

/-- Capability environment whose validator rejects on every call (all
other capabilities succeed deterministically). -/
def rejectEnv : Env where
  contextCap _ := some scenarioACtx
  classifyCap _ := some scenarioAClass
  priorityCap _ := some 5
  draftCap _ _ := some "draft text"
  validateCap _ _ := some { approved := false, feedback := "rework", confidence := 1 }

/-- Capability environment where every capability fails on every attempt. -/
def failEnv : Env where
  contextCap _ := none
  classifyCap _ := none
  priorityCap _ := none
  draftCap _ _ := none
  validateCap _ _ := none

/-- Capability environment producing a low-confidence classification, with
an always-approving validator. -/
def lowConfEnv : Env where
  contextCap _ := some scenarioACtx
  classifyCap _ := some lowConfClass
  priorityCap _ := some 1
  draftCap _ _ := some "draft text"
  validateCap _ _ := some { approved := true, feedback := "", confidence := 1 }

/-- A workflow state sitting at VALIDATE with the iteration count already
at the default maximum. -/
def exhaustState : WorkflowState where
  pipe := .VALIDATE
  receivedAt := 0
  context := some scenarioACtx
  contextUnavailable := false
  classification := some scenarioAClass
  classifyCount := 1
  priority := 4
  sla := some { priority := 4, deadline := 14400000 }
  requiresHumanReview := false
  draft := some "draft text"
  draftCount := 4
  iterationCount := 3
  lastValidation := none

/-- A workflow state sitting at ROUTE with priority 5 and the
requires-human-review flag set (as scenario A produces it). -/
def routeFlagged5 : WorkflowState where
  pipe := .ROUTE
  receivedAt := 0
  context := some scenarioACtx
  contextUnavailable := false
  classification := some scenarioAClass
  classifyCount := 1
  priority := 5
  sla := some { priority := 5, deadline := 3600000 }
  requiresHumanReview := true
  draft := some "draft text"
  draftCount := 1
  iterationCount := 0
  lastValidation := some { approved := true, feedback := "", confidence := 1 }

/-- Embedded from the dashboard page (src/unnamed/part_002, `formatTimeAgo`
inside `DashboardPage`): minutes from milliseconds, hours from minutes,
days from hours, with JavaScript `Math.floor` modelled as flooring integer
division. -/
def formatTimeAgoDashboard (dateMs nowMs : Int) : String :=
  let diffMs := nowMs - dateMs
  let diffMins := diffMs.fdiv 60000
  let diffHours := diffMins.fdiv 60
  let diffDays := diffHours.fdiv 24
  if diffMins < 1 then "Just now"
  else if diffMins < 60 then toString diffMins ++ "m ago"
  else if diffHours < 24 then toString diffHours ++ "h ago"
  else toString diffDays ++ "d ago"

/-- Embedded from src/frontend/components/complaint-list.tsx
(`formatTimeAgo`): minutes, hours and days each computed directly from the
millisecond difference. -/
def formatTimeAgoList (dateMs nowMs : Int) : String :=
  let diff := nowMs - dateMs
  let minutes := diff.fdiv 60000
  let hours := diff.fdiv 3600000
  let days := diff.fdiv 86400000
  if minutes < 1 then "Just now"
  else if minutes < 60 then toString minutes ++ "m ago"
  else if hours < 24 then toString hours ++ "h ago"
  else toString days ++ "d ago"

/-- A complaint as consumed by the dashboard metrics computation
(src/unnamed/part_002): only the status and creation timestamp matter. -/
structure FrontComplaint where
  id : String
  status : String
  created_at : Int
deriving DecidableEq, Repr

/-- The metrics record of the dashboard page (src/unnamed/part_002,
`DashboardMetrics`). -/
structure DashboardMetrics where
  total_complaints : Nat
  open_complaints : Nat
  resolved_today : Nat
  avg_response_time_minutes : ℚ
  sla_compliance_rate : ℚ
  avg_satisfaction_score : ℚ
deriving DecidableEq, Repr

/-- Embedded from src/unnamed/part_002 (`fetchData`): the metrics computed
from the fetched complaint list — length, count of open statuses, count of
RESOLVED, and the fixed constants 12, 94.2 and 4.6 for a non-empty list. -/
def computeMetrics (cs : List FrontComplaint) : DashboardMetrics where
  total_complaints := cs.length
  open_complaints :=
    (cs.filter (fun c => ["NEW", "IN_PROGRESS", "PENDING_REVIEW"].contains c.status)).length
  resolved_today := (cs.filter (fun c => c.status == "RESOLVED")).length
  avg_response_time_minutes := if cs.length > 0 then 12 else 0
  sla_compliance_rate := if cs.length > 0 then 942 / 10 else 0
  avg_satisfaction_score := if cs.length > 0 then 46 / 10 else 0

/-- The initial workflow state satisfies the engine invariant. -/
theorem Inv_initState (cfg : Config) (r : Int) : Inv cfg (initState r) := by
  simp [Inv, initState]

/-- The engine invariant is preserved by every transition. -/
theorem Inv_step (cfg : Config) (env : Env) (st : WorkflowState)
    (h : Inv cfg st) : Inv cfg (step cfg env st) := by
  obtain ⟨h1, h2, h3⟩ := h
  cases hp : st.pipe <;> simp only [Inv, hp] at h3
  case CONTEXT =>
    cases hc : invokeOpt env.contextCap <;>
      simp_all [Inv, step] <;> omega
  case PRIORITIZE =>
    simp_all [Inv, step, clampScore]
  case VALIDATE =>
    simp only [step, hp]
    by_cases hv : (validationAt env st.iterationCount).approved
    · rw [if_pos hv]
      simp only [Inv]
      omega
    · rw [if_neg hv]
      by_cases hi : st.iterationCount < cfg.maxIterations
      · rw [if_pos hi]
        simp only [Inv]
        omega
      · rw [if_neg hi]
        simp only [Inv]
        omega
  case ROUTE =>
    simp only [step, hp, routeOutcome]
    by_cases hb : 5 ≤ st.priority
    · rw [if_pos hb]
      simp only [Inv]
      omega
    · rw [if_neg hb]
      by_cases hr : st.requiresHumanReview = true
      · rw [if_pos hr]
        simp only [Inv]
        omega
      · rw [if_neg hr]
        by_cases h4 : st.priority = 4
        · rw [if_pos h4]
          simp only [Inv]
          omega
        · rw [if_neg h4]
          simp only [Inv]
          omega
  all_goals simp_all [Inv, step] <;> omega

/-- The engine invariant holds at every point of every run. -/
theorem Inv_iterate (cfg : Config) (env : Env) (r : Int) (k : Nat) :
    Inv cfg ((step cfg env)^[k] (initState r)) := by
  induction k with
  | zero => simpa using Inv_initState cfg r
  | succ n ih =>
    rw [Function.iterate_succ_apply']
    exact Inv_step _ _ _ ih

/-- Terminal states are absorbing. -/
theorem step_terminal (cfg : Config) (env : Env) (st : WorkflowState)
    (h : isTerminal st.pipe = true) : step cfg env st = st := by
  cases hp : st.pipe <;> simp_all [isTerminal, step]

/-- A transition never decreases the priority score. -/
theorem priority_le_step (cfg : Config) (env : Env) (st : WorkflowState)
    (h : Inv cfg st) : st.priority ≤ (step cfg env st).priority := by
  obtain ⟨h1, h2, h3⟩ := h
  cases hp : st.pipe <;> simp only [Inv, hp] at h3 <;> simp [step, hp]
  case CONTEXT =>
    cases hc : invokeOpt env.contextCap <;> simp
  case PRIORITIZE =>
    rw [h3.1]
    exact Nat.zero_le _
  case VALIDATE =>
    by_cases hv : (validationAt env st.iterationCount).approved <;>
      by_cases hi : st.iterationCount < cfg.maxIterations <;>
        simp [hv, hi] <;> omega

/-- The requires-human-review flag, once set, stays set. -/
theorem review_le_step (cfg : Config) (env : Env) (st : WorkflowState)
    (h : st.requiresHumanReview = true) :
    (step cfg env st).requiresHumanReview = true := by
  cases hp : st.pipe <;> simp [step, hp, h]
  case CONTEXT =>
    cases hc : invokeOpt env.contextCap <;> simp [h]
  case VALIDATE =>
    by_cases hv : (validationAt env st.iterationCount).approved <;>
      by_cases hi : st.iterationCount < cfg.maxIterations <;>
        simp [hv, hi, h]

/-- A state with exhausted variant is terminal. -/
theorem stepsLeft_zero (cfg : Config) (st : WorkflowState)
    (h : stepsLeft cfg st = 0) : isTerminal st.pipe = true := by
  cases hp : st.pipe <;> simp [stepsLeft, isTerminal, hp] at h ⊢ <;> omega

/-- Every transition from a non-terminal state strictly decreases the
variant. -/
theorem stepsLeft_step (cfg : Config) (env : Env) (st : WorkflowState)
    (h : Inv cfg st) (ht : isTerminal st.pipe = false) :
    stepsLeft cfg (step cfg env st) < stepsLeft cfg st := by
  obtain ⟨h1, h2, h3⟩ := h
  cases hp : st.pipe <;> simp only [Inv, hp] at h3 <;>
    simp [isTerminal, hp] at ht <;>
      simp only [step, stepsLeft, hp]
  case INTAKE => simp [stepsLeft]
  case CLASSIFY => simp [stepsLeft]
  case CONTEXT =>
    cases hc : invokeOpt env.contextCap <;> simp [stepsLeft]
  case PRIORITIZE =>
    simp [stepsLeft]
    omega
  case DRAFT =>
    simp [stepsLeft]
  case VALIDATE =>
    by_cases hv : (validationAt env st.iterationCount).approved <;>
      by_cases hi : st.iterationCount < cfg.maxIterations <;>
        simp [hv, hi, stepsLeft] <;> omega
  case ROUTE =>
    unfold routeOutcome
    by_cases hb : 5 ≤ st.priority <;>
      by_cases hr : st.requiresHumanReview <;>
        by_cases h4 : st.priority = 4 <;>
          simp [stepsLeft, hb, hr, h4]

/-- From any state satisfying the invariant, the engine reaches a terminal
state within `stepsLeft` transitions. -/
theorem terminal_iterate (cfg : Config) (env : Env) :
    ∀ (n : Nat) (st : WorkflowState), Inv cfg st → stepsLeft cfg st ≤ n →
      isTerminal (((step cfg env)^[n] st).pipe) = true := by
  intro n
  induction n with
  | zero =>
    intro st h hle
    simpa using stepsLeft_zero cfg st (Nat.le_zero.mp hle)
  | succ n ih =>
    intro st h hle
    by_cases ht : isTerminal st.pipe = true
    · rw [Function.iterate_fixed (step_terminal cfg env st ht)]
      exact ht
    · have ht' : isTerminal st.pipe = false := by simpa using ht
      rw [Function.iterate_succ_apply]
      refine ih (step cfg env st) (Inv_step _ _ _ h) ?_
      have := stepsLeft_step cfg env st ⟨h.1, h.2.1, h.2.2⟩ ht'
      omega

/-- Every run reaches a terminal state within the run fuel. -/
theorem run_terminal (cfg : Config) (env : Env) (r : Int) :
    isTerminal ((run cfg env r).pipe) = true := by
  unfold run
  refine terminal_iterate cfg env (runFuel cfg) (initState r)
    (Inv_initState cfg r) ?_
  simp [stepsLeft, initState, runFuel]

/-- A transition never invalidates an SLA record: the record survives, its
deadline never moves later, and it changes at all only when the priority it
was derived from is revised upward. -/
theorem sla_step (cfg : Config) (env : Env) (st : WorkflowState)
    (h : Inv cfg st) (rec : SlaRecord) (hrec : st.sla = some rec) :
    ∃ rec', (step cfg env st).sla = some rec' ∧ rec'.deadline ≤ rec.deadline ∧
      (rec' ≠ rec → rec.priority < rec'.priority) := by
  obtain ⟨h1, h2, h3⟩ := h
  cases hp : st.pipe <;> simp only [Inv, hp] at h3
  case INTAKE => rw [h3.2.1] at hrec; cases hrec
  case CONTEXT => rw [h3.2.1] at hrec; cases hrec
  case CLASSIFY => rw [h3.2.1] at hrec; cases hrec
  case PRIORITIZE => rw [h3.2.1] at hrec; cases hrec
  case DRAFT =>
    exact ⟨rec, by simp [step, hp, hrec], le_refl _, fun hne => absurd rfl hne⟩
  case VALIDATE =>
    by_cases hv : (validationAt env st.iterationCount).approved
    · refine ⟨rec, ?_, le_refl _, fun hne => absurd rfl hne⟩
      simp only [step, hp]
      rw [if_pos hv]
      exact hrec
    · by_cases hi : st.iterationCount < cfg.maxIterations
      · refine ⟨rec, ?_, le_refl _, fun hne => absurd rfl hne⟩
        simp only [step, hp]
        rw [if_neg hv, if_pos hi]
        exact hrec
      · refine ⟨updateSla cfg st.receivedAt rec (min (st.priority + 1) 5), ?_, ?_, ?_⟩
        · simp only [step, hp]
          rw [if_neg hv, if_neg hi]
          simp [hrec]
        · unfold updateSla
          by_cases hlt : rec.priority < min (st.priority + 1) 5
          · rw [if_pos hlt]
            exact min_le_left _ _
          · rw [if_neg hlt]
        · intro hne
          unfold updateSla at hne ⊢
          by_cases hlt : rec.priority < min (st.priority + 1) 5
          · rw [if_pos hlt]
            exact hlt
          · rw [if_neg hlt] at hne
            exact absurd rfl hne
  case ROUTE =>
    exact ⟨rec, by simp [step, hp, hrec], le_refl _, fun hne => absurd rfl hne⟩
  all_goals
    exact ⟨rec, by simp [step, hp, hrec], le_refl _, fun hne => absurd rfl hne⟩

/-- Along a run, an SLA record once present survives with a deadline that
never moves later. -/
theorem sla_iterate (cfg : Config) (env : Env) (r : Int) (j k : Nat)
    (hjk : j ≤ k) (rec : SlaRecord)
    (hrec : ((step cfg env)^[j] (initState r)).sla = some rec) :
    ∃ rec', ((step cfg env)^[k] (initState r)).sla = some rec' ∧
      rec'.deadline ≤ rec.deadline := by
  induction k, hjk using Nat.le_induction with
  | base => exact ⟨rec, hrec, le_refl _⟩
  | succ k hjk ih =>
    obtain ⟨rec', h', hd⟩ := ih
    obtain ⟨rec'', h'', hd', _⟩ :=
      sla_step cfg env _ (Inv_iterate cfg env r k) rec' h'
    rw [Function.iterate_succ_apply']
    exact ⟨rec'', h'', le_trans hd' hd⟩

/-- Along a run, the priority score never decreases. -/
theorem priority_iterate (cfg : Config) (env : Env) (r : Int) (j k : Nat)
    (hjk : j ≤ k) :
    ((step cfg env)^[j] (initState r)).priority ≤
      ((step cfg env)^[k] (initState r)).priority := by
  induction k, hjk using Nat.le_induction with
  | base => exact le_refl _
  | succ k hjk ih =>
    rw [Function.iterate_succ_apply']
    exact le_trans ih (priority_le_step cfg env _ (Inv_iterate cfg env r k))

/-- Along a run, the requires-human-review flag once set stays set. -/
theorem review_iterate (cfg : Config) (env : Env) (r : Int) (j k : Nat)
    (hjk : j ≤ k)
    (h : ((step cfg env)^[j] (initState r)).requiresHumanReview = true) :
    ((step cfg env)^[k] (initState r)).requiresHumanReview = true := by
  induction k, hjk using Nat.le_induction with
  | base => exact h
  | succ k hjk ih =>
    rw [Function.iterate_succ_apply']
    exact review_le_step cfg env _ ih

/-- The invariant bounds the number of completed DRAFT invocations. -/
theorem draftCount_of_Inv (cfg : Config) (st : WorkflowState)
    (h : Inv cfg st) : st.draftCount ≤ cfg.maxIterations + 1 := by
  obtain ⟨h1, h2, h3⟩ := h
  cases hp : st.pipe <;> simp only [Inv, hp] at h3 <;> omega

/-- In a terminal state the CLASSIFY stage has run exactly once. -/
theorem classifyCount_of_terminal (cfg : Config) (st : WorkflowState)
    (h : Inv cfg st) (ht : isTerminal st.pipe = true) :
    st.classifyCount = 1 := by
  obtain ⟨h1, h2, h3⟩ := h
  cases hp : st.pipe <;> simp only [Inv, hp] at h3 <;>
    simp [isTerminal, hp] at ht <;> omega

/-- A capability that fails on every budgeted attempt yields no result
from the retry wrapper. -/
theorem invokeOpt_none {α : Type} (cap : Nat → Option α)
    (h : ∀ a, a < retryBudget → cap a = none) : invokeOpt cap = none := by
  simp [invokeOpt, retryBudget, firstHit,
    h 0 (by decide), h 1 (by decide), h 2 (by decide), h 3 (by decide)]

/-- After two transitions every workflow is at CLASSIFY. -/
theorem pipe_classify (cfg : Config) (env : Env) (r : Int) :
    ((step cfg env)^[2] (initState r)).pipe = PipeState.CLASSIFY := by
  show (step cfg env (step cfg env (initState r))).pipe = PipeState.CLASSIFY
  have h1 : step cfg env (initState r) =
      { initState r with pipe := PipeState.CONTEXT } := rfl
  rw [h1]
  cases hc : invokeOpt env.contextCap <;> simp [step, hc]

/-- A below-threshold classification confidence sets the
requires-human-review flag at the CLASSIFY transition. -/
theorem flag_after_classify (cfg : Config) (env : Env) (r : Int)
    (hconf : (classificationOf env).confidence < cfg.confidenceThreshold) :
    ((step cfg env)^[3] (initState r)).requiresHumanReview = true := by
  have h2 := pipe_classify cfg env r
  have hb : decide ((classificationOf env).confidence < cfg.confidenceThreshold)
      = true := decide_eq_true hconf
  have h3 : ((step cfg env)^[3] (initState r)) =
      step cfg env ((step cfg env)^[2] (initState r)) :=
    Function.iterate_succ_apply' (step cfg env) 2 (initState r)
  rw [h3]
  set s2 := (step cfg env)^[2] (initState r) with hs2
  simp [step, h2, hb]

/-- C1: the priority score equals min(base for the dominant category + the
sum of the triggered modifiers, 5), with the five modifiers (+2 repeat, +1
angry, +1 VIP, +3 legal/chargeback, +2 SLA-breach risk) each contributed at
most once per evaluation, and the scoring function is deterministic:
identical inputs yield the identical score. -/
theorem priorityScore_spec (cfg : Config) (c : ClassificationResult)
    (ctx : CustomerContext) (breach : ℚ) :
    priorityScore cfg c ctx breach =
      min (cfg.baseScore (dominantCategory c)
            + ((if ctx.repeatSameIssue then 2 else 0)
              + (if c.sentiment = Sentiment.Angry then 1 else 0)
              + (if ctx.vip then 1 else 0)
              + (if c.legalThreat then 3 else 0)
              + (if cfg.breachThreshold < breach then 2 else 0))) 5
    ∧ (∀ f : Factor, (triggeredFactors cfg c ctx breach).count f ≤ 1)
    ∧ (∀ c' ctx' breach', c = c' → ctx = ctx' → breach = breach' →
        priorityScore cfg c ctx breach = priorityScore cfg c' ctx' breach') := by
  refine ⟨?_, ?_, ?_⟩
  · unfold priorityScore triggeredFactors
    by_cases h1 : ctx.repeatSameIssue <;>
      by_cases h2 : c.sentiment = Sentiment.Angry <;>
        by_cases h3 : ctx.vip <;>
          by_cases h4 : c.legalThreat <;>
            by_cases h5 : cfg.breachThreshold < breach <;>
              simp [h1, h2, h3, h4, h5, factorWeight]
  · intro f
    unfold triggeredFactors
    by_cases h1 : ctx.repeatSameIssue <;>
      by_cases h2 : c.sentiment = Sentiment.Angry <;>
        by_cases h3 : ctx.vip <;>
          by_cases h4 : c.legalThreat <;>
            by_cases h5 : cfg.breachThreshold < breach <;>
              simp only [h1, h2, h3, h4, h5, if_true, if_false] <;>
                cases f <;> simp [List.count_append, List.count_cons, List.count_nil]
  · intro c' ctx' breach' hc hctx hb
    rw [hc, hctx, hb]

/-- Witness for C1 at the spec's scenario A inputs: base 2 (Shipping) +
repeat (+2) + angry (+1) + chargeback (+3) = 8, capped to 5. -/
theorem priorityScore_spec_witness :
    priorityScore defaultConfig scenarioAClass scenarioACtx 0 = 5 := by
  have h := (priorityScore_spec defaultConfig scenarioAClass scenarioACtx 0).1
  rw [h]
  norm_num [defaultConfig, scenarioAClass, scenarioACtx, dominantCategory]

/-- C2: for every input and every behavior of the capabilities (including a
validator that rejects on every call), the iteration count never exceeds
the configured maximum (default 3), the number of completed DRAFT
invocations never exceeds max_iterations + 1, and once the maximum is
reached the VALIDATE step exits the loop to ROUTE unconditionally. -/
theorem draft_loop_bounded (cfg : Config) (env : Env) (r : Int) :
    (∀ k : Nat,
      ((step cfg env)^[k] (initState r)).iterationCount ≤ cfg.maxIterations
      ∧ ((step cfg env)^[k] (initState r)).draftCount ≤ cfg.maxIterations + 1)
    ∧ (∀ st : WorkflowState, st.pipe = PipeState.VALIDATE →
        cfg.maxIterations ≤ st.iterationCount →
        (step cfg env st).pipe = PipeState.ROUTE)
    ∧ defaultConfig.maxIterations = 3 := by
  refine ⟨?_, ?_, rfl⟩
  · intro k
    have h := Inv_iterate cfg env r k
    exact ⟨h.1, draftCount_of_Inv cfg _ h⟩
  · intro st hpipe hge
    simp only [step, hpipe]
    by_cases hv : (validationAt env st.iterationCount).approved
    · rw [if_pos hv]
    · rw [if_neg hv, if_neg (by omega)]

/-- Witness for C2 under the always-rejecting validator at the default
configuration. -/
theorem draft_loop_bounded_witness :
    ((step defaultConfig rejectEnv)^[13] (initState 0)).iterationCount ≤ 3
    ∧ ((step defaultConfig rejectEnv)^[13] (initState 0)).draftCount ≤ 4
    ∧ (step defaultConfig rejectEnv exhaustState).pipe = PipeState.ROUTE := by
  have h := draft_loop_bounded defaultConfig rejectEnv 0
  exact ⟨(h.1 13).1, (h.1 13).2, h.2.1 exhaustState rfl (by decide)⟩

/-- C3 counterexample: at ROUTE with requires-human-review set and priority
5 the outcome is ESCALATED, not QUEUED_FOR_REVIEW, refuting the claim that
a set flag forces QUEUED_FOR_REVIEW regardless of priority. -/
theorem route_flag_counterexample :
    routeFlagged5.requiresHumanReview = true
    ∧ (step defaultConfig rejectEnv routeFlagged5).pipe = PipeState.ESCALATED
    ∧ (step defaultConfig rejectEnv routeFlagged5).pipe
        ≠ PipeState.QUEUED_FOR_REVIEW := by
  refine ⟨rfl, rfl, ?_⟩
  decide

/-- C3 amended: at ROUTE, priority 5 yields ESCALATED regardless of the
requires-human-review flag; otherwise a set flag forces QUEUED_FOR_REVIEW;
otherwise priority 4 yields QUEUED_FOR_REVIEW and priorities below 4 yield
AUTO_SENT. -/
theorem route_spec (cfg : Config) (env : Env) (st : WorkflowState)
    (hpipe : st.pipe = PipeState.ROUTE) :
    (5 ≤ st.priority → (step cfg env st).pipe = PipeState.ESCALATED)
    ∧ (st.requiresHumanReview = true → st.priority < 5 →
        (step cfg env st).pipe = PipeState.QUEUED_FOR_REVIEW)
    ∧ (st.requiresHumanReview = false → st.priority = 4 →
        (step cfg env st).pipe = PipeState.QUEUED_FOR_REVIEW)
    ∧ (st.requiresHumanReview = false → st.priority < 4 →
        (step cfg env st).pipe = PipeState.AUTO_SENT) := by
  obtain ⟨p, ra, cx, cu, cl, cc, pr, sl, rv, dr, dc, ic, lv⟩ := st
  simp only at hpipe ⊢
  subst hpipe
  refine ⟨?_, ?_, ?_, ?_⟩
  · intro h5
    simp [step, routeOutcome, h5]
  · intro hrv h5
    have ha : ¬ 5 ≤ pr := by omega
    simp [step, routeOutcome, hrv, ha]
  · intro hrv h4
    simp [step, routeOutcome, hrv, h4]
  · intro hrv h4
    have ha : ¬ 5 ≤ pr := by omega
    have hb : ¬ pr = 4 := by omega
    simp [step, routeOutcome, hrv, ha, hb]

/-- Witness for the amended C3 at a flagged priority-5 state. -/
theorem route_spec_witness :
    (step defaultConfig rejectEnv routeFlagged5).pipe = PipeState.ESCALATED := by
  have h := route_spec defaultConfig rejectEnv routeFlagged5 rfl
  exact h.1 (by decide)

/-- C4: when VALIDATE returns approved = false with the iteration count at
the configured maximum, the engine sets requires-human-review, raises the
priority by exactly one level capped at 5, and transitions to ROUTE. -/
theorem validate_exhaustion (cfg : Config) (env : Env) (st : WorkflowState)
    (hpipe : st.pipe = PipeState.VALIDATE)
    (happr : (validationAt env st.iterationCount).approved = false)
    (hiter : st.iterationCount = cfg.maxIterations) :
    (step cfg env st).requiresHumanReview = true
    ∧ (step cfg env st).priority = min (st.priority + 1) 5
    ∧ (step cfg env st).pipe = PipeState.ROUTE := by
  obtain ⟨p, ra, cx, cu, cl, cc, pr, sl, rv, dr, dc, ic, lv⟩ := st
  simp only at hpipe happr hiter ⊢
  subst hpipe
  subst hiter
  simp [step, happr]

/-- Witness for C4 at an exhausted VALIDATE state with the rejecting
validator: priority 4 is raised to 5 and routing follows. -/
theorem validate_exhaustion_witness :
    (step defaultConfig rejectEnv exhaustState).requiresHumanReview = true
    ∧ (step defaultConfig rejectEnv exhaustState).priority = 5
    ∧ (step defaultConfig rejectEnv exhaustState).pipe = PipeState.ROUTE := by
  have h := validate_exhaustion defaultConfig rejectEnv exhaustState rfl rfl rfl
  refine ⟨h.1, ?_, h.2.2⟩
  rw [h.2.1]
  decide

/-- C5: along any workflow run, the sequence of priority scores is
monotonically non-decreasing — no later evaluation assigns a strictly
lower score than an earlier one. -/
theorem priority_monotone (cfg : Config) (env : Env) (r : Int) (j k : Nat)
    (hjk : j ≤ k) :
    ((step cfg env)^[j] (initState r)).priority ≤
      ((step cfg env)^[k] (initState r)).priority :=
  priority_iterate cfg env r j k hjk

/-- Witness for C5 between the first priority assignment and the end of a
run with an always-rejecting validator. -/
theorem priority_monotone_witness :
    ((step defaultConfig rejectEnv)^[4] (initState 0)).priority ≤
      ((step defaultConfig rejectEnv)^[13] (initState 0)).priority :=
  priority_monotone defaultConfig rejectEnv 0 4 13 (by decide)

/-- C6: once an SLA record is present, every later point of the run still
has one with a deadline that is equal or strictly earlier — never later —
and a one-step change of the record happens only when the priority it was
derived from is revised upward. -/
theorem sla_never_relaxed (cfg : Config) (env : Env) (r : Int) :
    (∀ j k : Nat, j ≤ k → ∀ rec : SlaRecord,
      ((step cfg env)^[j] (initState r)).sla = some rec →
      ∃ rec', ((step cfg env)^[k] (initState r)).sla = some rec'
        ∧ rec'.deadline ≤ rec.deadline)
    ∧ (∀ (j : Nat) (rec rec' : SlaRecord),
        ((step cfg env)^[j] (initState r)).sla = some rec →
        ((step cfg env)^[j + 1] (initState r)).sla = some rec' →
        rec' ≠ rec → rec.priority < rec'.priority) := by
  constructor
  · intro j k hjk rec hrec
    exact sla_iterate cfg env r j k hjk rec hrec
  · intro j rec rec' hrec hrec'
    obtain ⟨rec'', h'', _, himp⟩ :=
      sla_step cfg env _ (Inv_iterate cfg env r j) rec hrec
    rw [Function.iterate_succ_apply', h''] at hrec'
    injection hrec' with he
    subst he
    exact himp

/-- Witness for C6: the SLA record set at PRIORITIZE survives to the end
of the run with a deadline no later than the one first computed. -/
theorem sla_never_relaxed_witness :
    ∃ rec', ((step defaultConfig rejectEnv)^[13] (initState 0)).sla = some rec'
      ∧ rec'.deadline ≤ 3600000 := by
  have h := (sla_never_relaxed defaultConfig rejectEnv 0).1 4 13 (by decide)
    { priority := 5, deadline := 3600000 } (by decide)
  exact h

/-- C7: a classification confidence strictly below the configured threshold
(default 0.7) sets the requires-human-review flag, the CLASSIFY stage runs
exactly once (no automatic re-attempt), and the pipeline still reaches a
terminal state. -/
theorem low_confidence_flagged (cfg : Config) (env : Env) (r : Int)
    (hconf : (classificationOf env).confidence < cfg.confidenceThreshold) :
    (run cfg env r).requiresHumanReview = true
    ∧ isTerminal ((run cfg env r).pipe) = true
    ∧ (run cfg env r).classifyCount = 1
    ∧ defaultConfig.confidenceThreshold = 7 / 10 := by
  refine ⟨?_, run_terminal cfg env r, ?_, rfl⟩
  · unfold run
    refine review_iterate cfg env r 3 (runFuel cfg) ?_
      (flag_after_classify cfg env r hconf)
    unfold runFuel
    omega
  · exact classifyCount_of_terminal cfg _ (Inv_iterate cfg env r (runFuel cfg))
      (run_terminal cfg env r)

/-- Witness for C7 with a confidence-0.6 classification. -/
theorem low_confidence_flagged_witness :
    (run defaultConfig lowConfEnv 0).requiresHumanReview = true
    ∧ (run defaultConfig lowConfEnv 0).classifyCount = 1 := by
  have hconf : (classificationOf lowConfEnv).confidence
      < defaultConfig.confidenceThreshold := by
    show (6 / 10 : ℚ) < 7 / 10
    norm_num
  have h := low_confidence_flagged defaultConfig lowConfEnv 0 hconf
  exact ⟨h.1, h.2.2.1⟩

/-- C8: whenever a capability fails on every budgeted attempt, the engine
substitutes the stage-specific fallback (safe conservative classification,
priority floor 3, generic template response, send-to-human validation,
empty customer context), and — for every behavior of the capabilities —
every workflow still reaches a terminal state. -/
theorem fallback_terminal (cfg : Config) (env : Env) (r : Int) :
    ((∀ a, a < retryBudget → env.classifyCap a = none) →
      classificationOf env = safeClassification)
    ∧ ((∀ a, a < retryBudget → env.priorityCap a = none) →
      priorityRaw env = priorityFloor)
    ∧ (∀ iter, (∀ a, a < retryBudget → env.draftCap iter a = none) →
      draftAt env iter = genericTemplate)
    ∧ (∀ iter, (∀ a, a < retryBudget → env.validateCap iter a = none) →
      validationAt env iter = sendToHuman)
    ∧ (∀ st : WorkflowState, st.pipe = PipeState.CONTEXT →
      (∀ a, a < retryBudget → env.contextCap a = none) →
      (step cfg env st).context = some emptyContext
      ∧ (step cfg env st).contextUnavailable = true)
    ∧ retryBudget = 4
    ∧ isTerminal ((run cfg env r).pipe) = true := by
  refine ⟨?_, ?_, ?_, ?_, ?_, rfl, run_terminal cfg env r⟩
  · intro h
    simp [classificationOf, invokeOpt_none _ h]
  · intro h
    simp [priorityRaw, invokeOpt_none _ h]
  · intro iter h
    simp [draftAt, invokeOpt_none _ h]
  · intro iter h
    simp [validationAt, invokeOpt_none _ h]
  · intro st hpipe h
    obtain ⟨p, ra, cx, cu, cl, cc, pr, sl, rv, dr, dc, ic, lv⟩ := st
    simp only at hpipe
    subst hpipe
    simp [step, invokeOpt_none _ h]

/-- Witness for C8 with every capability failing on every attempt. -/
theorem fallback_terminal_witness :
    classificationOf failEnv = safeClassification
    ∧ priorityRaw failEnv = priorityFloor
    ∧ validationAt failEnv 0 = sendToHuman
    ∧ isTerminal ((run defaultConfig failEnv 0).pipe) = true := by
  have h := fallback_terminal defaultConfig failEnv 0
  exact ⟨h.1 (fun a _ => rfl), h.2.1 (fun a _ => rfl),
    h.2.2.2.1 0 (fun a _ => rfl), h.2.2.2.2.2.2⟩

/-- Flooring integer division by a positive constant composes: dividing by
`b` and then by `c` equals dividing by `b * c`. -/
theorem fdiv_comp (a : Int) {b c : Int} (hb : 0 < b) (hc : 0 < c) :
    (a.fdiv b).fdiv c = a.fdiv (b * c) := by
  rw [Int.fdiv_eq_ediv _ (le_of_lt hb), Int.fdiv_eq_ediv _ (le_of_lt hc),
    Int.fdiv_eq_ediv _ (le_of_lt (mul_pos hb hc))]
  apply le_antisymm
  · rw [Int.le_ediv_iff_mul_le (mul_pos hb hc)]
    calc a / b / c * (b * c) = a / b / c * c * b := by ring
      _ ≤ a / b * b :=
        mul_le_mul_of_nonneg_right (Int.ediv_mul_le _ (ne_of_gt hc)) (le_of_lt hb)
      _ ≤ a := Int.ediv_mul_le _ (ne_of_gt hb)
  · rw [Int.le_ediv_iff_mul_le hc, Int.le_ediv_iff_mul_le hb]
    calc a / (b * c) * c * b = a / (b * c) * (b * c) := by ring
      _ ≤ a := Int.ediv_mul_le _ (ne_of_gt (mul_pos hb hc))

/-- C9: the dashboard page's `formatTimeAgo` and the complaint-list
component's `formatTimeAgo` are extensionally equal — for every timestamp
and current time they return the identical string, although one derives
hours and days from the minute count and the other directly from
milliseconds. -/
theorem formatTimeAgo_equiv (dateMs nowMs : Int) :
    formatTimeAgoDashboard dateMs nowMs = formatTimeAgoList dateMs nowMs := by
  unfold formatTimeAgoDashboard formatTimeAgoList
  have h1 : ((nowMs - dateMs).fdiv 60000).fdiv 60
      = (nowMs - dateMs).fdiv 3600000 := by
    rw [fdiv_comp _ (by norm_num) (by norm_num)]
    norm_num
  have h2 : ((nowMs - dateMs).fdiv 3600000).fdiv 24
      = (nowMs - dateMs).fdiv 86400000 := by
    rw [fdiv_comp _ (by norm_num) (by norm_num)]
    norm_num
  simp only [h1, h2]

/-- Rewriting every complaint's creation timestamp does not change the
number of RESOLVED entries. -/
theorem resolved_filter_map (cs : List FrontComplaint)
    (f : FrontComplaint → Int) :
    ((cs.map (fun c => { c with created_at := f c })).filter
      (fun c => c.status == "RESOLVED")).length
      = (cs.filter (fun c => c.status == "RESOLVED")).length := by
  induction cs with
  | nil => rfl
  | cons c rest ih =>
    simp only [List.map_cons, List.filter_cons]
    cases hc : c.status == "RESOLVED" <;> simp [hc, ih]

/-- C10: the dashboard metrics are a pure function of the fetched list:
total is the length, open counts the statuses NEW, IN_PROGRESS and
PENDING_REVIEW, the metric displayed as resolved-today counts every
RESOLVED complaint regardless of its date, and the remaining three metrics
are the constants 12, 94.2 and 4.6 on a non-empty list and 0 on an empty
one. -/
theorem dashboard_metrics_spec (cs : List FrontComplaint) :
    (computeMetrics cs).total_complaints = cs.length
    ∧ (computeMetrics cs).open_complaints = cs.countP
        (fun c => decide (c.status = "NEW" ∨ c.status = "IN_PROGRESS"
          ∨ c.status = "PENDING_REVIEW"))
    ∧ (computeMetrics cs).resolved_today
        = cs.countP (fun c => decide (c.status = "RESOLVED"))
    ∧ (∀ f : FrontComplaint → Int,
        (computeMetrics (cs.map (fun c => { c with created_at := f c }))).resolved_today
          = (computeMetrics cs).resolved_today)
    ∧ (cs ≠ [] →
        (computeMetrics cs).avg_response_time_minutes = 12
        ∧ (computeMetrics cs).sla_compliance_rate = 942 / 10
        ∧ (computeMetrics cs).avg_satisfaction_score = 46 / 10)
    ∧ (cs = [] →
        (computeMetrics cs).avg_response_time_minutes = 0
        ∧ (computeMetrics cs).sla_compliance_rate = 0
        ∧ (computeMetrics cs).avg_satisfaction_score = 0) := by
  refine ⟨rfl, ?_, ?_, ?_, ?_, ?_⟩
  · show (cs.filter
        (fun c => ["NEW", "IN_PROGRESS", "PENDING_REVIEW"].contains c.status)).length
      = _
    rw [List.countP_eq_length_filter]
    congr 1
    apply List.filter_congr
    intro c _
    by_cases e1 : c.status = "NEW"
    · simp [e1]
    · by_cases e2 : c.status = "IN_PROGRESS"
      · simp [e1, e2]
      · by_cases e3 : c.status = "PENDING_REVIEW"
        · simp [e1, e2, e3]
        · simp [e1, e2, e3]
  · show (cs.filter (fun c => c.status == "RESOLVED")).length = _
    rw [List.countP_eq_length_filter]
    congr 1
  · intro f
    exact resolved_filter_map cs f
  · intro h
    have hl : cs.length > 0 := List.length_pos.mpr h
    simp [computeMetrics, hl]
  · intro h
    subst h
    simp [computeMetrics]

/-- Witness for C10 on a one-element RESOLVED list and on the empty list. -/
theorem dashboard_metrics_spec_witness :
    (computeMetrics [{ id := "c1", status := "RESOLVED", created_at := 0 }]).resolved_today = 1
    ∧ (computeMetrics [{ id := "c1", status := "RESOLVED", created_at := 0 }]).sla_compliance_rate = 942 / 10
    ∧ (computeMetrics ([] : List FrontComplaint)).sla_compliance_rate = 0 := by
  have h := dashboard_metrics_spec
    [{ id := "c1", status := "RESOLVED", created_at := 0 }]
  have h0 := dashboard_metrics_spec ([] : List FrontComplaint)
  refine ⟨?_, (h.2.2.2.2.1 (by simp)).2.1, (h0.2.2.2.2.2 rfl).2.1⟩
  rw [h.2.2.1]
  decide

end Resolver
